import Mathlib

/-!
Verification development for quickdirtyscan (src/quickdirtyscan.c), a
sequential localhost TCP port scanner.  The C program is shallowly embedded:
connection attempts and file opens are modelled by their outcomes (Bool /
Option inputs), the /proc filesystem by a list of per-process entries, and
the static result buffer of get_process_info by an Option-valued fold.
-/

namespace QDScan

/-! ## Constants (from the #define block) -/

def START_PORT : Nat := 1

def END_PORT : Nat := 65535

/-! ## C library helpers used by the program -/

/-- Digit-run accumulator for atoi: consumes leading decimal digits. -/
def atoiDigits : List Char → Nat → Nat
  | [], acc => acc
  | c :: cs, acc =>
      if c.isDigit then atoiDigits cs (acc * 10 + (c.toNat - 48)) else acc

/-- atoi on the strings the scanner feeds it (/proc entry names): parses the
leading run of decimal digits, 0 when the string does not start with one. -/
def atoi (s : String) : Nat := atoiDigits s.toList 0

/-- isdigit(entry->d_name[0]): the first character is a decimal digit. -/
def isdigitFirst (s : String) : Bool :=
  match s.toList with
  | [] => false
  | c :: _ => c.isDigit

/-- proc_name[strcspn(proc_name, "\n")] = 0: truncate at the first newline. -/
def trimNewline (s : String) : String :=
  String.mk (s.toList.takeWhile (fun c => c != '\n'))

/-- sscanf(status_line, "Uid:\t%d", &uid): after the literal Uid: prefix,
whitespace is skipped and a run of digits is parsed; none when no digit
follows (sscanf returns 0 and uid keeps its previous value). -/
def parseUidNum (s : String) : Option Nat :=
  let rest := (s.toList.drop 4).dropWhile (fun c => c == ' ' || c == '\t')
  match rest with
  | [] => none
  | c :: _ =>
      if c.isDigit then some (atoiDigits (rest.takeWhile Char.isDigit) 0)
      else none

/-- strncmp(status_line, "Uid:", 4) == 0: the first four characters are
U, i, d, colon. -/
def uidPrefix (s : String) : Bool :=
  s.toList.take 4 == ['U', 'i', 'd', ':']

/-- The loop over /proc/PID/status lines: break at the first line whose
prefix is Uid:, take its parsed value; uid stays at its initialisation 0
when the parse fails or no such line exists. -/
def scanUid : List String → Nat
  | [] => 0
  | l :: ls => if uidPrefix l then (parseUidNum l).getD 0 else scanUid ls

/-- pw ? pw->pw_name : "unknown" after getpwuid(uid), with the user database
modelled as a partial map from uid. -/
def lookupOwner (pwdb : Nat → Option String) (uid : Nat) : String :=
  match pwdb uid with
  | some nm => nm
  | none => "unknown"

/-! ## Process table model

A /proc directory entry, as get_process_info can observe it: the entry name,
and the outcomes of opening/reading the three per-process files.  A line of
net/tcp is abstracted to the result of
sscanf(line, "%*d: %[^:]:%X", local_addr, &local_port): some localPort when
both fields parse, none otherwise (header lines and garbage). -/
structure ProcEntry where
  dName : String
  netTcp : Option (List (Option Nat))
  comm : Option (Option String)
  status : Option (List String)

/-- The information written by snprintf into the process_info buffer on a
match. -/
structure ProcessRecord where
  procName : String
  pidStr : String
  owner : String
deriving DecidableEq, Repr

/-- The inner while loop over net/tcp lines: scan for the first line that
parses and whose local port equals the target; lines that fail to parse or
carry another port are passed over. -/
def hasPortLine (port : Nat) : List (Option Nat) → Bool
  | [] => false
  | l :: ls =>
      match l with
      | some p => if p = port then true else hasPortLine port ls
      | none => hasPortLine port ls

/-- What one /proc entry contributes to the process_info buffer: some record
when the entry survives the digit/self filter, its net/tcp opens and contains
the port, and both comm and status open with a readable first comm line;
none on every path that leaves the buffer untouched. -/
def entryRecord (pwdb : Nat → Option String) (our_pid port : Nat)
    (e : ProcEntry) : Option ProcessRecord :=
  if !(isdigitFirst e.dName) || atoi e.dName == our_pid then none
  else
    match e.netTcp with
    | none => none
    | some lines =>
        if hasPortLine port (lines.drop 1) then
          match e.comm, e.status with
          | some commFile, some statusLines =>
              match commFile with
              | some nameLine =>
                  some { procName := trimNewline nameLine
                         pidStr := e.dName
                         owner := lookupOwner pwdb (scanUid statusLines) }
              | none => none
          | _, _ => none
        else none

/-- One iteration of the readdir loop acting on the static buffer: the
snprintf overwrites it on a successful match, every other path keeps it. -/
def procStep (pwdb : Nat → Option String) (our_pid port : Nat)
    (acc : Option ProcessRecord) (e : ProcEntry) : Option ProcessRecord :=
  match entryRecord pwdb our_pid port e with
  | some r => some r
  | none => acc

/-- get_process_info: none both for the empty buffer returned when
opendir("/proc") fails and when no entry ever fills the buffer. -/
def get_process_info (pwdb : Nat → Option String) (our_pid port : Nat)
    (procDir : Option (List ProcEntry)) : Option ProcessRecord :=
  match procDir with
  | none => none
  | some es => es.foldl (procStep pwdb our_pid port) none

/-! ## Prober -/

/-- check_port_state, with the second socket() call and the second connect()
modelled by their outcomes: 0 when the socket cannot be created, 2 when the
second dial connects, 1 when it does not. -/
def check_port_state (sockOk connOk : Bool) : Nat :=
  if !sockOk then 0
  else if connOk then 2
  else 1

/-- The ternary chain in main's printf: 2 renders LISTENING, 1 ESTABLISHED,
anything else OPEN. -/
def stateName (s : Nat) : String :=
  if s = 2 then "LISTENING" else if s = 1 then "ESTABLISHED" else "OPEN"

/-! ## Driver -/

/-- Per-port outcomes of the four fallible socket operations main and
check_port_state perform: the probe socket() and connect() in main, then the
socket() and connect() inside check_port_state. -/
structure PortEnv where
  sockOk : Bool
  connectOk : Bool
  stateSockOk : Bool
  stateConnectOk : Bool
deriving DecidableEq, Repr

/-- The ambient collaborators of one run: getservbyport, getpwuid, getpid
and the /proc directory. -/
structure Ctx where
  serviceDb : Nat → Option String
  pwdb : Nat → Option String
  our_pid : Nat
  procDir : Option (List ProcEntry)

/-- One printed row of the report. -/
structure OutRecord where
  port : Nat
  state : String
  service : String
  processCol : String
deriving DecidableEq, Repr

/-- snprintf left-justified field padding. -/
def padRight (w : Nat) (s : String) : String :=
  s ++ String.mk (List.replicate (w - s.length) ' ')

/-- The snprintf format "%-15s  PID: %-6s  User: %-8s". -/
def formatRecord (r : ProcessRecord) : String :=
  padRight 15 r.procName ++ "  PID: " ++ padRight 6 r.pidStr ++
    "  User: " ++ padRight 8 r.owner

/-- proc_info[0] ? proc_info : "unknown" in main's printf. -/
def procColumn (r : Option ProcessRecord) : String :=
  match r with
  | some r0 => formatRecord r0
  | none => "unknown"

/-- One iteration of main's port loop: none when the probe socket cannot be
created or the first connect fails, otherwise the printed row. -/
def scanPort (ctx : Ctx) (env : Nat → PortEnv) (port : Nat) : Option OutRecord :=
  let e := env port
  if !e.sockOk then none
  else if e.connectOk then
    let service :=
      match ctx.serviceDb port with
      | some nm => nm
      | none => "unknown"
    let st := check_port_state e.stateSockOk e.stateConnectOk
    let pi := get_process_info ctx.pwdb ctx.our_pid port ctx.procDir
    some { port := port, state := stateName st, service := service
           processCol := procColumn pi }
  else none

/-- The ports main's for loop visits, in order. -/
def probedPorts : List Nat := List.range' START_PORT (END_PORT - START_PORT + 1)

/-- The rows printed for a given list of ports, in loop order. -/
def sweep (ctx : Ctx) (env : Nat → PortEnv) (ports : List Nat) : List OutRecord :=
  ports.filterMap (scanPort ctx env)

/-- The full report body produced by main. -/
def mainScan (ctx : Ctx) (env : Nat → PortEnv) : List OutRecord :=
  sweep ctx env probedPorts

/-! ## Observable events of one port iteration -/

/-- The externally visible actions main can take for one port. -/
inductive Action
  | firstDial
  | stateCheck
  | secondSocket
  | secondDial
  | correlate
deriving DecidableEq, Repr

/-- Trace of one iteration of main's loop: nothing when the probe socket
fails; a lone first dial when it fails to connect; on success the state
check (its socket creation, and its dial when that socket exists) and the
correlation. -/
def portEvents (e : PortEnv) : List Action :=
  if !e.sockOk then []
  else if e.connectOk then
    [Action.firstDial, Action.stateCheck, Action.secondSocket] ++
      (if e.stateSockOk then [Action.secondDial] else []) ++ [Action.correlate]
  else [Action.firstDial]

/-! ## File-handle accounting in get_process_info

For one /proc entry, how many FILE handles the function opens and how many
it closes: fopen(net/tcp) is balanced by the unconditional fclose(fp); the
comm and status handles are only closed inside if (comm_fp && status_fp). -/

/-- Handles successfully opened while get_process_info examines one entry. -/
def handlesOpened (our_pid port : Nat) (e : ProcEntry) : Nat :=
  if !(isdigitFirst e.dName) || atoi e.dName == our_pid then 0
  else
    match e.netTcp with
    | none => 0
    | some lines =>
        1 + (if hasPortLine port (lines.drop 1) then
               (if e.comm.isSome then 1 else 0) +
                 (if e.status.isSome then 1 else 0)
             else 0)

/-- Handles the function closes while examining the same entry. -/
def handlesClosed (our_pid port : Nat) (e : ProcEntry) : Nat :=
  if !(isdigitFirst e.dName) || atoi e.dName == our_pid then 0
  else
    match e.netTcp with
    | none => 0
    | some lines =>
        1 + (if hasPortLine port (lines.drop 1) then
               (if e.comm.isSome && e.status.isSome then 2 else 0)
             else 0)

/-- An entry get_process_info would see as holding the port: it passes the
digit/self filter, its net/tcp opens, and a parsed line carries the target
port. -/
def entryMatches (our_pid port : Nat) (e : ProcEntry) : Bool :=
  isdigitFirst e.dName && (atoi e.dName != our_pid) &&
    (match e.netTcp with
     | some lines => hasPortLine port (lines.drop 1)
     | none => false)

/-- A degenerate collaborator context for concrete evaluations: every lookup
fails and /proc cannot be opened. -/
def ctx0 : Ctx := ⟨fun _ => none, fun _ => none, 1, none⟩

/-- Per-port outcomes where the first dial is refused on every port. -/
def envRefused : Nat → PortEnv := fun _ => ⟨true, false, false, false⟩

/-- Per-port outcomes where every port is open and the second dial fails. -/
def envOpen : Nat → PortEnv := fun _ => ⟨true, true, true, false⟩

/-! ## Theorems -/

/-- C1: once the first connection attempt has succeeded, the prober follows
the two-dial policy: a second successful dial classifies the port LISTENING,
a failed second dial ESTABLISHED, and failure to even create the second
socket falls back to OPEN; the return code is always one of 0, 1, 2, so no
fourth outcome exists. -/
theorem C1_two_dial_policy (sockOk connOk : Bool) :
    stateName (check_port_state sockOk connOk) =
      (if sockOk then (if connOk then "LISTENING" else "ESTABLISHED")
       else "OPEN") ∧
    (check_port_state sockOk connOk = 0 ∨ check_port_state sockOk connOk = 1 ∨
      check_port_state sockOk connOk = 2) := by
  cases sockOk <;> cases connOk <;> simp [check_port_state, stateName]

/-- The readdir loop keeps the last snprintf: folding procStep equals taking
the last entry (first in reverse order) that produces a record, with the
accumulator as fallback. -/
theorem foldl_procStep_eq (pwdb : Nat → Option String) (our_pid port : Nat)
    (es : List ProcEntry) :
    ∀ acc, es.foldl (procStep pwdb our_pid port) acc =
      match es.reverse.findSome? (entryRecord pwdb our_pid port) with
      | some r => some r
      | none => acc := by
  induction es with
  | nil => intro acc; rfl
  | cons e es ih =>
      intro acc
      rw [List.foldl_cons, ih, List.reverse_cons, List.findSome?_append]
      cases h : es.reverse.findSome? (entryRecord pwdb our_pid port) with
      | some r => simp [h, Option.or]
      | none =>
          simp only [h, Option.or]
          cases h2 : entryRecord pwdb our_pid port e with
          | some r => simp [procStep, h2, List.findSome?_cons]
          | none => simp [procStep, h2, List.findSome?_cons]

/-- C2 counterexample: two distinct processes both hold port 80; the first
one in enumeration order matches (its entry produces a record), yet
get_process_info returns the record of the second process, so first-match-wins
across processes is false. -/
theorem C2_counterexample :
    (entryRecord (fun u => if u == 100 then some "alice" else none) 999 80
        ⟨"10", some [none, some 80], some (some "alpha"), some ["Uid:\t100"]⟩).isSome
      = true ∧
    get_process_info (fun u => if u == 100 then some "alice" else none) 999 80
      (some
        [⟨"10", some [none, some 80], some (some "alpha"), some ["Uid:\t100"]⟩,
         ⟨"20", some [none, some 80], some (some "beta"), some ["Uid:\t100"]⟩]) =
      some ⟨"beta", "20", "alice"⟩ := by
  constructor
  · decide
  · decide

/-- C2 (amended): correlation is last-match-wins across processes: the
record returned is that of the last process in enumeration order whose entry
passes the digit/self filter, whose socket table opens and contains the port,
and whose comm/status files are readable; earlier matches are overwritten,
and the no-owner sentinel results only when no entry produces a record. -/
theorem C2_last_match_wins (pwdb : Nat → Option String) (our_pid port : Nat)
    (es : List ProcEntry) :
    get_process_info pwdb our_pid port (some es) =
      es.reverse.findSome? (entryRecord pwdb our_pid port) := by
  show es.foldl (procStep pwdb our_pid port) none = _
  rw [foldl_procStep_eq]
  cases h : es.reverse.findSome? (entryRecord pwdb our_pid port) <;> simp

/-- Any record an entry produces carries that entry's name as its pid field,
and that entry passed the self filter. -/
theorem entryRecord_pid (pwdb : Nat → Option String) (our_pid port : Nat)
    (e : ProcEntry) (r : ProcessRecord)
    (h : entryRecord pwdb our_pid port e = some r) :
    r.pidStr = e.dName ∧ atoi e.dName ≠ our_pid := by
  unfold entryRecord at h
  split at h
  · exact absurd h (by simp)
  · rename_i hguard
    have hne : atoi e.dName ≠ our_pid := fun hc => hguard (by simp [hc])
    repeat' split at h
    all_goals
      first
        | (injection h with h; subst h; exact ⟨rfl, hne⟩)
        | exact absurd h (fun hcon => Option.noConfusion hcon)

/-- C3: no correlation result is ever attributed to the scanner itself:
whenever get_process_info returns a record, the numeric pid of that record
differs from our_pid, for every process table, port and user database; in
particular a port held only by the scanner's own connection yields no
self-record. -/
theorem C3_self_exclusion (pwdb : Nat → Option String) (our_pid port : Nat)
    (dir : Option (List ProcEntry)) (r : ProcessRecord)
    (h : get_process_info pwdb our_pid port dir = some r) :
    atoi r.pidStr ≠ our_pid := by
  cases dir with
  | none => exact absurd h (by simp [get_process_info])
  | some es =>
      have hf := foldl_procStep_eq pwdb our_pid port es none
      have h' : es.foldl (procStep pwdb our_pid port) none = some r := h
      rw [hf] at h'
      cases hfs : es.reverse.findSome? (entryRecord pwdb our_pid port) with
      | none => rw [hfs] at h'; exact absurd h' (by simp)
      | some r' =>
          rw [hfs] at h'
          injection h' with h'
          subst h'
          obtain ⟨e, _, he⟩ := List.exists_of_findSome?_eq_some hfs
          obtain ⟨hpid, hne⟩ := entryRecord_pid pwdb our_pid port e r' he
          rw [hpid]
          exact hne

/-- C3 witness: a concrete table where the scanner (pid 999) and process 10
both appear; the result is process 10's record, whose pid is not 999. -/
theorem C3_self_exclusion_witness :
    atoi (ProcessRecord.pidStr ⟨"alpha", "10", "alice"⟩) ≠ 999 :=
  C3_self_exclusion (fun u => if u == 100 then some "alice" else none) 999 80
    (some
      [⟨"999", some [none, some 80], some (some "scanner"), some ["Uid:\t100"]⟩,
       ⟨"10", some [none, some 80], some (some "alpha"), some ["Uid:\t100"]⟩])
    ⟨"alpha", "10", "alice"⟩ (by decide)

/-- C4: the per-process file handles are NOT all released when exactly one
of the comm/status fopen calls succeeds: on this entry (net/tcp readable and
holding the port, comm readable, status unreadable) the function opens two
handles but closes only one, leaking comm_fp, because both fclose calls sit
inside if (comm_fp && status_fp). -/
theorem C4_handle_leak :
    handlesOpened 999 80 ⟨"10", some [none, some 80], some (some "alpha"), none⟩ = 2 ∧
    handlesClosed 999 80 ⟨"10", some [none, some 80], some (some "alpha"), none⟩ = 1 := by
  constructor <;> decide

/-- The ports of the emitted rows are exactly the ports of the visited list
whose probe socket was created and whose first dial connected, in order. -/
theorem sweep_ports_eq (ctx : Ctx) (env : Nat → PortEnv) (ports : List Nat) :
    (sweep ctx env ports).map OutRecord.port =
      ports.filter (fun p => (env p).sockOk && (env p).connectOk) := by
  induction ports with
  | nil => rfl
  | cons p ps ih =>
      simp only [sweep] at ih ⊢
      cases hs : (env p).sockOk <;> cases hc : (env p).connectOk <;>
        simp [scanPort, hs, hc, ih]

/-- C5: the sweep visits exactly the ports 1..65535, each once, in strictly
ascending order — ports outside that interval are never probed — and the
report carries exactly the open ports (probe socket created and first dial
connected), one row each, in the same ascending order. -/
theorem C5_sweep_coverage (ctx : Ctx) (env : Nat → PortEnv) :
    (∀ p : Nat, p ∈ probedPorts ↔ 1 ≤ p ∧ p ≤ 65535) ∧
    probedPorts.Nodup ∧
    List.Pairwise (· < ·) probedPorts ∧
    (mainScan ctx env).map OutRecord.port =
      probedPorts.filter (fun p => (env p).sockOk && (env p).connectOk) := by
  refine ⟨?_, ?_, ?_, ?_⟩
  · intro p
    rw [probedPorts, START_PORT, END_PORT, List.mem_range'_1]
    omega
  · exact List.nodup_range' START_PORT (END_PORT - START_PORT + 1)
  · exact List.pairwise_lt_range' START_PORT (END_PORT - START_PORT + 1)
  · exact sweep_ports_eq ctx env probedPorts

/-- C6: a port whose probe socket cannot be created or whose first dial
fails produces no row, triggers no state detection, no second socket or
dial, and no correlation, and the sweep over the remaining ports is exactly
the sweep had this port not been visited. -/
theorem C6_closed_port_skipped (ctx : Ctx) (env : Nat → PortEnv) (port : Nat)
    (rest : List Nat)
    (h : ((env port).sockOk && (env port).connectOk) = false) :
    scanPort ctx env port = none ∧
    Action.stateCheck ∉ portEvents (env port) ∧
    Action.secondSocket ∉ portEvents (env port) ∧
    Action.secondDial ∉ portEvents (env port) ∧
    Action.correlate ∉ portEvents (env port) ∧
    sweep ctx env (port :: rest) = sweep ctx env rest := by
  cases hs : (env port).sockOk <;> cases hc : (env port).connectOk <;>
    rw [hs, hc] at h <;> simp at h <;>
    refine ⟨?_, ?_, ?_, ?_, ?_, ?_⟩ <;>
    simp [scanPort, portEvents, sweep, hs, hc]

/-- C6 witness: the claim's guarantees evaluated on a concrete refused
port. -/
theorem C6_closed_port_skipped_witness :
    scanPort ctx0 envRefused 5 = none ∧
    Action.stateCheck ∉ portEvents (envRefused 5) ∧
    Action.secondSocket ∉ portEvents (envRefused 5) ∧
    Action.secondDial ∉ portEvents (envRefused 5) ∧
    Action.correlate ∉ portEvents (envRefused 5) ∧
    sweep ctx0 envRefused (5 :: [6]) = sweep ctx0 envRefused [6] :=
  C6_closed_port_skipped ctx0 envRefused 5 [6] (by decide)

/-- C7: the printed STATE is a function of the connection-attempt outcomes
alone — two runs over identical outcomes but arbitrary different process
tables, user databases, service tables and self pids print the same state —
and every printed state is one of LISTENING, ESTABLISHED, OPEN. -/
theorem C7_state_from_outcomes_only (ctx₁ ctx₂ : Ctx) (env : Nat → PortEnv)
    (port : Nat) :
    Option.map OutRecord.state (scanPort ctx₁ env port) =
      Option.map OutRecord.state (scanPort ctx₂ env port) ∧
    (∀ r, scanPort ctx₁ env port = some r →
      r.state = "LISTENING" ∨ r.state = "ESTABLISHED" ∨ r.state = "OPEN") := by
  constructor
  · cases hs : (env port).sockOk <;> cases hc : (env port).connectOk <;>
      simp [scanPort, hs, hc]
  · intro r hr
    cases hs : (env port).sockOk <;> cases hc : (env port).connectOk <;>
      simp [scanPort, hs, hc] at hr
    subst hr
    cases hss : (env port).stateSockOk <;>
      cases hcc : (env port).stateConnectOk <;>
      simp [check_port_state, stateName, hss, hcc]

/-- C7 witness: two contexts differing in their process table print the
same state for a concretely open port, and that state is one of the three. -/
theorem C7_state_from_outcomes_only_witness :
    Option.map OutRecord.state (scanPort ctx0 envOpen 5) =
      Option.map OutRecord.state
        (scanPort ⟨fun _ => none, fun _ => none, 1,
          some [⟨"10", some [none, some 5], some (some "alpha"), some []⟩]⟩
          envOpen 5) ∧
    (∀ r, scanPort ctx0 envOpen 5 = some r →
      r.state = "LISTENING" ∨ r.state = "ESTABLISHED" ∨ r.state = "OPEN") :=
  C7_state_from_outcomes_only ctx0
    ⟨fun _ => none, fun _ => none, 1,
      some [⟨"10", some [none, some 5], some (some "alpha"), some []⟩]⟩
    envOpen 5

/-- C8: both resolution failures are substituted with the sentinel rather
than dropping the unit of work: a matched process whose uid the user
database cannot resolve still yields its record, with owner unknown; and an
open port absent from the service table still yields its row, with service
unknown. -/
theorem C8_unknown_fallbacks :
    (∀ (pwdb : Nat → Option String) (our_pid port : Nat) (e : ProcEntry)
        (r : ProcessRecord), pwdb (scanUid (e.status.getD [])) = none →
        entryRecord pwdb our_pid port e = some r → r.owner = "unknown") ∧
    (∀ (ctx : Ctx) (env : Nat → PortEnv) (port : Nat) (r : OutRecord),
        ctx.serviceDb port = none → scanPort ctx env port = some r →
        r.service = "unknown") := by
  constructor
  · intro pwdb our_pid port e r hdb h
    unfold entryRecord at h
    repeat' split at h
    all_goals
      first
        | (injection h with h; subst h; simp_all [lookupOwner])
        | exact absurd h (fun hcon => Option.noConfusion hcon)
  · intro ctx env port r hsvc h
    cases hs : (env port).sockOk <;> cases hc : (env port).connectOk <;>
      simp [scanPort, hs, hc] at h
    subst h
    simp [hsvc]

/-- C8 witness: with an everywhere-failing user database a matching process
still produces a record whose owner is unknown, and with an empty service
table an open port still produces a row whose service is unknown. -/
theorem C8_unknown_fallbacks_witness :
    ProcessRecord.owner ⟨"alpha", "10", "unknown"⟩ = "unknown" ∧
    OutRecord.service ⟨5, "ESTABLISHED", "unknown", "unknown"⟩ = "unknown" :=
  ⟨C8_unknown_fallbacks.1 (fun _ => none) 999 80
      ⟨"10", some [none, some 80], some (some "alpha"), some ["Uid:\t100"]⟩
      ⟨"alpha", "10", "unknown"⟩ rfl (by decide),
   C8_unknown_fallbacks.2 ctx0 envOpen 5 ⟨5, "ESTABLISHED", "unknown", "unknown"⟩
      rfl (by decide)⟩

/-- C9: a status record with no Uid line, or whose first Uid line carries no
parsable number, leaves the uid at its default 0, so the produced record's
owner is whatever the user database returns for uid 0; unknown appears only
when that lookup itself fails. -/
theorem C9_uid_default :
    (∀ ls : List String, (∀ l ∈ ls, uidPrefix l = false) → scanUid ls = 0) ∧
    (∀ (l : String) (ls : List String), uidPrefix l = true →
        parseUidNum l = none → scanUid (l :: ls) = 0) ∧
    (∀ (pwdb : Nat → Option String) (our_pid port : Nat) (e : ProcEntry)
        (r : ProcessRecord), scanUid (e.status.getD []) = 0 →
        entryRecord pwdb our_pid port e = some r →
        r.owner = lookupOwner pwdb 0) ∧
    (∀ (pwdb : Nat → Option String) (nm : String), pwdb 0 = some nm →
        lookupOwner pwdb 0 = nm) ∧
    (∀ pwdb : Nat → Option String, pwdb 0 = none →
        lookupOwner pwdb 0 = "unknown") := by
  refine ⟨?_, ?_, ?_, ?_, ?_⟩
  · intro ls h
    induction ls with
    | nil => rfl
    | cons l ls ih =>
        rw [scanUid, h l (by simp)]
        exact ih (fun l' hl' => h l' (by simp [hl']))
  · intro l ls h1 h2
    rw [scanUid, h1, h2]
    rfl
  · intro pwdb our_pid port e r h0 h
    unfold entryRecord at h
    repeat' split at h
    all_goals
      first
        | (injection h with h; subst h; simp_all)
        | exact absurd h (fun hcon => Option.noConfusion hcon)
  · intro pwdb nm h
    simp [lookupOwner, h]
  · intro pwdb h
    simp [lookupOwner, h]

/-- C9 witness: on a status record without a Uid line, uid stays 0 and the
record's owner is the user database's answer for uid 0 (root here), not
unknown. -/
theorem C9_uid_default_witness :
    scanUid ["Name:\tfoo"] = 0 ∧
    scanUid ["Uid:\tx y z"] = 0 ∧
    ProcessRecord.owner ⟨"alpha", "10", "root"⟩ =
      lookupOwner (fun u => if u == 0 then some "root" else none) 0 ∧
    lookupOwner (fun u => if u == 0 then some "root" else none) 0 = "root" ∧
    lookupOwner (fun _ => none) 0 = "unknown" :=
  ⟨C9_uid_default.1 ["Name:\tfoo"] (by decide),
   C9_uid_default.2.1 "Uid:\tx y z" [] (by decide) (by decide),
   C9_uid_default.2.2.1 (fun u => if u == 0 then some "root" else none) 999 80
      ⟨"10", some [none, some 80], some (some "alpha"), some ["Name:\tfoo"]⟩
      ⟨"alpha", "10", "root"⟩ (by decide) (by decide),
   C9_uid_default.2.2.2.1 (fun u => if u == 0 then some "root" else none)
      "root" rfl,
   C9_uid_default.2.2.2.2 (fun _ => none) rfl⟩

/-- An entry observed not to hold the port never writes the buffer. -/
theorem entryRecord_of_matches_false (pwdb : Nat → Option String)
    (our_pid port : Nat) (e : ProcEntry)
    (h : entryMatches our_pid port e = false) :
    entryRecord pwdb our_pid port e = none := by
  unfold entryMatches at h
  unfold entryRecord
  split
  · rfl
  · rename_i hguard
    have h1 : isdigitFirst e.dName = true := by
      cases hd : isdigitFirst e.dName
      · exact absurd (by simp [hd]) hguard
      · rfl
    have h2 : (atoi e.dName == our_pid) = false := by
      cases ha : (atoi e.dName == our_pid)
      · rfl
      · exact absurd (by simp [ha]) hguard
    rw [h1] at h
    simp only [bne, h2, Bool.not_false, Bool.and_true, Bool.true_and] at h
    cases hnt : e.netTcp with
    | none => rfl
    | some lines =>
        rw [hnt] at h
        simp at h
        simp [h]

/-- C10: correlation never fails hard: an unopenable /proc yields the empty
sentinel, a table in which no examined entry holds the port yields the empty
sentinel, the driver renders the empty sentinel as the word unknown, and an
open port always gets exactly one well-formed row whose PROCESS column is the
rendering of the correlation result. -/
theorem C10_no_hard_failure :
    (∀ (pwdb : Nat → Option String) (our_pid port : Nat),
        get_process_info pwdb our_pid port none = none) ∧
    (∀ (pwdb : Nat → Option String) (our_pid port : Nat) (es : List ProcEntry),
        (∀ e ∈ es, entryMatches our_pid port e = false) →
        get_process_info pwdb our_pid port (some es) = none) ∧
    procColumn none = "unknown" ∧
    (∀ (ctx : Ctx) (env : Nat → PortEnv) (port : Nat),
        ((env port).sockOk && (env port).connectOk) = true →
        ∃ r, scanPort ctx env port = some r ∧
          r.processCol =
            procColumn (get_process_info ctx.pwdb ctx.our_pid port ctx.procDir)) := by
  refine ⟨?_, ?_, rfl, ?_⟩
  · intro pwdb our_pid port
    rfl
  · intro pwdb our_pid port es hall
    induction es with
    | nil => rfl
    | cons e es ih =>
        have he := entryRecord_of_matches_false pwdb our_pid port e
          (hall e (by simp))
        show (e :: es).foldl (procStep pwdb our_pid port) none = none
        rw [List.foldl_cons]
        have hstep : procStep pwdb our_pid port none e = none := by
          simp [procStep, he]
        rw [hstep]
        exact ih (fun e' he' => hall e' (by simp [he']))
  · intro ctx env port h
    rw [Bool.and_eq_true] at h
    refine ⟨⟨port,
        stateName (check_port_state (env port).stateSockOk (env port).stateConnectOk),
        (match ctx.serviceDb port with | some nm => nm | none => "unknown"),
        procColumn (get_process_info ctx.pwdb ctx.our_pid port ctx.procDir)⟩,
      ?_, rfl⟩
    simp [scanPort, h.1, h.2]

/-- C10 witness: the sentinel cases evaluated concretely — unreadable /proc,
a table whose only entries are the scanner itself and a non-matching
process, the rendering of the sentinel, and a concrete open port's row. -/
theorem C10_no_hard_failure_witness :
    get_process_info (fun _ => none) 1 5 none = none ∧
    get_process_info (fun _ => none) 999 80
      (some [⟨"999", some [none, some 80], some (some "scanner"), some []⟩,
             ⟨"10", some [none, some 81], none, none⟩]) = none ∧
    procColumn none = "unknown" ∧
    (∃ r, scanPort ctx0 envOpen 5 = some r ∧
      r.processCol = procColumn (get_process_info ctx0.pwdb ctx0.our_pid 5 ctx0.procDir)) :=
  ⟨C10_no_hard_failure.1 (fun _ => none) 1 5,
   C10_no_hard_failure.2.1 (fun _ => none) 999 80
      [⟨"999", some [none, some 80], some (some "scanner"), some []⟩,
       ⟨"10", some [none, some 81], none, none⟩]
      (by decide),
   C10_no_hard_failure.2.2.1,
   C10_no_hard_failure.2.2.2 ctx0 envOpen 5 (by decide)⟩

end QDScan
